import Mathlib

/-!
Shallow embedding of src/firstproject.py, a Streamlit expense-tracking app:
a synthetic-data generator (generate_data), a SQLite schema initializer
(init_db), an append-only persistence layer (load_data_to_db), a query
runner (query_data) and a five-mode UI dispatcher.

The SQLite store is modelled as an association list from table names to
lists of rows; Python floats rounded to two decimals are modelled as
rationals; the randomness consumed by the generator (random.choice,
random.uniform, faker) is modelled as an explicit stream of draws passed
as an argument; exceptions raised by the database layer are modelled with
Except, and the presence or absence of a try/except handler in each UI
branch is mirrored in the branch functions below.
-/

namespace ExpenseTracker

/-- Transaction record with the seven columns of the per-month tables
(Date, Category, Payment_Mode, Description, Amount_Paid, Cashback, Month),
as built by generate_data and declared by init_db. -/
structure Record where
  Date : String
  Category : String
  Payment_Mode : String
  Description : String
  Amount_Paid : ℚ
  Cashback : ℚ
  Month : String
deriving DecidableEq

/-- Randomness source consumed by generate_data: one draw of each kind per
record index. dateAt and descAt model fake.date_this_year and fake.text;
catIx and payIx model the index picked by random.choice; uAmount and uCash
model the unit-interval draw underlying random.uniform (Python guarantees
these lie in the half-open interval from 0 to 1). -/
structure RandStream where
  dateAt : ℕ → String
  catIx : ℕ → ℕ
  payIx : ℕ → ℕ
  descAt : ℕ → String
  uAmount : ℕ → ℚ
  uCash : ℕ → ℚ

/-- The 10 fixed category labels of generate_data (source lines 13-16). -/
def categories : List String :=
  ["Food", "Transportation", "Bills", "Groceries", "Entertainment",
   "Healthcare", "Shopping", "Travel", "Dining", "Subscriptions"]

/-- The 6 fixed payment-mode labels of generate_data (source lines 17-19). -/
def payment_modes : List String :=
  ["Cash", "Wallet", "Credit Card", "Debit Card", "UPI", "Netbanking"]

/-- Model of random.choice on a nonempty list: the drawn index is reduced
modulo the length of the list. -/
def pyChoice (l : List String) (i : ℕ) : String := l.getD (i % l.length) ""

/-- Model of random.uniform a b: a + (b - a) * u where u is the underlying
unit-interval draw. -/
def pyUniform (a b u : ℚ) : ℚ := a + (b - a) * u

/-- Model of round(x, 2): round to the nearest multiple of 1/100. -/
def pyRound2 (q : ℚ) : ℚ := ((round (100 * q) : ℤ) : ℚ) / 100

/-- Embedding of generate_data (source lines 12-31): n records for the
given month, each with a random date, a category and payment mode drawn
from the fixed label lists, a short description, Amount_Paid =
round(uniform(50.0, 1000.0), 2), Cashback = round(uniform(0.0, 50.0), 2)
and Month equal to the given month label. Pure: no database argument. -/
def generate_data (month : String) (n : ℕ) (r : RandStream) : List Record :=
  (List.range n).map (fun k =>
    { Date := r.dateAt k
      Category := pyChoice categories (r.catIx k)
      Payment_Mode := pyChoice payment_modes (r.payIx k)
      Description := r.descAt k
      Amount_Paid := pyRound2 (pyUniform 50 1000 (r.uAmount k))
      Cashback := pyRound2 (pyUniform 0 50 (r.uCash k))
      Month := month })

/-- The SQLite database file expenses.db: an association list from table
names to their rows. SQLite keeps table names unique, so well-formed
states have pairwise distinct keys. -/
abbrev DB := List (String × List Record)

/-- Table name used throughout the source for a month string m:
the string expenses_ followed by m. -/
def tableName (month : String) : String := "expenses_" ++ month

/-- Lookup of a table by name (first matching entry). -/
def lookupT : DB → String → Option (List Record)
  | [], _ => none
  | (k, v) :: rest, t => if k = t then some v else lookupT rest t

/-- Key list of the store: the table names in order. -/
def keys (db : DB) : List String := db.map Prod.fst

/-- Embedding of one CREATE TABLE IF NOT EXISTS statement (source lines
43-53): a new empty table is appended only when no table of that name
exists; an existing table is left untouched. -/
def createTableIfNotExists (db : DB) (t : String) : DB :=
  match lookupT db t with
  | some _ => db
  | none => db ++ [(t, [])]

/-- The 12 calendar month names iterated by init_db (source lines 37-40). -/
def months : List String :=
  ["January", "February", "March", "April", "May", "June",
   "July", "August", "September", "October", "November", "December"]

/-- The 12 per-month table names created by init_db. -/
def monthTables : List String := months.map tableName

/-- Embedding of init_db (source lines 34-55): CREATE TABLE IF NOT EXISTS
for each of the 12 month tables, in order. -/
def init_db (db : DB) : DB := monthTables.foldl createTableIfNotExists db

/-- Replace the rows of the named table in place, or append a new table
when none of that name exists. -/
def setTable : DB → String → List Record → DB
  | [], t, rows => [(t, rows)]
  | (k, v) :: rest, t, rows =>
    if k = t then (t, rows) :: rest else (k, v) :: setTable rest t rows

/-- Embedding of load_data_to_db (source lines 58-62): pandas to_sql with
if_exists set to append creates the table expenses_<month> when absent and
appends the batch after any existing rows. -/
def load_data_to_db (data : List Record) (month : String) (db : DB) : DB :=
  setTable db (tableName month)
    ((lookupT db (tableName month)).getD [] ++ data)

/-- Descending comparison on Amount_Paid, the order of
ORDER BY Amount_Paid DESC. -/
def amtGe (a b : Record) : Prop := b.Amount_Paid ≤ a.Amount_Paid

instance : DecidableRel amtGe :=
  fun a b => inferInstanceAs (Decidable (b.Amount_Paid ≤ a.Amount_Paid))

instance : IsTotal Record amtGe := ⟨fun a b => le_total b.Amount_Paid a.Amount_Paid⟩

instance : IsTrans Record amtGe := ⟨fun _ _ _ h1 h2 => le_trans h2 h1⟩

/-- Rows sorted in descending order of Amount_Paid. -/
def sortByAmountDesc (rows : List Record) : List Record := rows.insertionSort amtGe

/-- Remove the named table (first matching entry), the effect of
DROP TABLE. -/
def eraseTable : DB → String → DB
  | [], _ => []
  | (k, v) :: rest, t => if k = t then rest else (k, v) :: eraseTable rest t

/-- SQL statements reaching query_data in the claims under study:
SELECT * FROM t (the View branch, source line 112); the Top 5 Highest
Expenses template SELECT * FROM t ORDER BY Amount_Paid DESC LIMIT 5
(source line 75); the per-category aggregate of the Visualize branch
(source line 121); and, through the free-text custom-query mode, a DROP
TABLE statement and unparseable text. -/
inductive SQL where
  | selectAll (table : String)
  | top5 (table : String)
  | groupSumByCategory (table : String)
  | dropTable (table : String)
  | malformed (raw : String)

/-- Result shape of a query: plain record rows, or the two-column
aggregate rows of the per-category sum. -/
inductive ResultSet where
  | records (rows : List Record)
  | categoryTotals (rows : List (String × ℚ))
deriving DecidableEq

/-- Distinct Category values in order of first appearance. -/
def distinctCategories (rows : List Record) : List String :=
  rows.foldl (fun acc x => if x.Category ∈ acc then acc else acc ++ [x.Category]) []

/-- Per-category sums of Amount_Paid, the result of
SELECT Category, SUM(Amount_Paid) ... GROUP BY Category. -/
def sumByCategory (rows : List Record) : List (String × ℚ) :=
  (distinctCategories rows).map
    (fun c => (c, ((rows.filter (fun x => x.Category == c)).map Record.Amount_Paid).sum))

/-- Embedding of query_data (source lines 65-69) together with the SQLite
semantics of each statement. A raised exception is modelled as
Except.error; query_data itself has no handler, so the error propagates
to the caller. Reads leave the store unchanged. DROP TABLE on an existing
table takes effect (Python sqlite3 runs DDL in autocommit mode, so the
drop is committed as soon as the statement executes) and then
pandas.read_sql_query raises because the cursor carries no result
columns: the store change persists even though an error is reported.
A statement naming a missing table, and unparseable text, raise without
touching the store. -/
def query_data : SQL → DB → Except String ResultSet × DB
  | SQL.selectAll t, db =>
    match lookupT db t with
    | some rows => (Except.ok (ResultSet.records rows), db)
    | none => (Except.error ("no such table: " ++ t), db)
  | SQL.top5 t, db =>
    match lookupT db t with
    | some rows => (Except.ok (ResultSet.records ((sortByAmountDesc rows).take 5)), db)
    | none => (Except.error ("no such table: " ++ t), db)
  | SQL.groupSumByCategory t, db =>
    match lookupT db t with
    | some rows => (Except.ok (ResultSet.categoryTotals (sumByCategory rows)), db)
    | none => (Except.error ("no such table: " ++ t), db)
  | SQL.dropTable t, db =>
    match lookupT db t with
    | some _ => (Except.error "statement returns no rows", eraseTable db t)
    | none => (Except.error ("no such table: " ++ t), db)
  | SQL.malformed raw, db => (Except.error ("near " ++ raw ++ ": syntax error"), db)

/-- The Top 5 Highest Expenses entry of SQL_QUERIES with the table name of
the chosen month substituted in (source lines 75 and 148). -/
def top5Query (month : String) : SQL := SQL.top5 (tableName month)

/-- Outcome of one UI action: a rendered result table, a success banner
with a five-row preview, a caught error rendered by st.error, or an
exception that no branch-level handler caught. -/
inductive Outcome where
  | table (rs : ResultSet)
  | successMsg (msg : String) (preview : List Record)
  | errorShown (msg : String)
  | uncaught (exn : String)
deriving DecidableEq

/-- True when the outcome is an exception no handler caught. -/
def Outcome.isUncaught : Outcome → Bool
  | Outcome.uncaught _ => true
  | _ => false

/-- Embedding of the Generate Data branch (source lines 97-105). This
branch wraps generate_data and load_data_to_db in no try/except; loadExn
models an exception raised by the database layer during the load (for
instance a locked database file): when it fires, it propagates uncaught.
On success the branch shows a banner and a head preview of the batch. -/
def generateBranch (month : String) (n : ℕ) (r : RandStream) (db : DB)
    (loadExn : Option String) : Outcome × DB :=
  let data := generate_data month n r
  match loadExn with
  | some e => (Outcome.uncaught e, db)
  | none =>
    (Outcome.successMsg
      ("Data for " ++ month ++ " generated and loaded into the database!")
      (data.take 5),
     load_data_to_db data month db)

/-- Embedding of the View Data branch (source lines 107-116): runs
SELECT * on the month table inside try/except; any error is rendered by
st.error with the message of line 116. -/
def viewBranch (month : String) (db : DB) : Outcome :=
  match (query_data (SQL.selectAll (tableName month)) db).1 with
  | Except.ok rs => Outcome.table rs
  | Except.error e =>
    Outcome.errorShown
      ("Error: " ++ e ++ ". Make sure the table for " ++ month ++ " exists.")

/-- Embedding of the Visualize Insights branch (source lines 118-132):
runs the per-category aggregate inside try/except; any error is rendered
by st.error with the message of line 132. -/
def visualizeBranch (month : String) (db : DB) : Outcome :=
  match (query_data (SQL.groupSumByCategory (tableName month)) db).1 with
  | Except.ok rs => Outcome.table rs
  | Except.error e =>
    Outcome.errorShown ("Error: " ++ e ++ ". Ensure data exists for " ++ month ++ ".")

/-- Embedding of the Run SQL Query branch (source lines 134-142): executes
the raw statement inside try/except; any error is rendered by st.error
with the message of line 142. Store changes made by the statement before
the exception persist. -/
def runSqlBranch (q : SQL) (db : DB) : Outcome × DB :=
  match query_data q db with
  | (Except.ok rs, db2) => (Outcome.table rs, db2)
  | (Except.error e, db2) => (Outcome.errorShown ("An error occurred: " ++ e), db2)

/-- Embedding of the Predefined SQL Queries branch (source lines 144-159):
runs the selected template on the chosen month inside try/except; any
error is rendered by st.error with the message of line 159. -/
def predefinedBranch (q : SQL) (month : String) (db : DB) : Outcome :=
  match (query_data q db).1 with
  | Except.ok rs => Outcome.table rs
  | Except.error e =>
    Outcome.errorShown ("Error: " ++ e ++ ". Ensure data exists for " ++ month ++ ".")

/-- Concrete randomness source used in witnesses: every draw constant. -/
def constStream : RandStream :=
  { dateAt := fun _ => "2026-01-01"
    catIx := fun _ => 0
    payIx := fun _ => 0
    descAt := fun _ => "sample text"
    uAmount := fun _ => 0
    uCash := fun _ => 0 }

/-- Concrete record used in concrete-state theorems. -/
def sampleRec : Record :=
  { Date := "2026-01-05"
    Category := "Food"
    Payment_Mode := "Cash"
    Description := "coffee"
    Amount_Paid := 100
    Cashback := 5
    Month := "January" }

/-- Rows of the month table, defaulting to the empty table. -/
def tableRows (db : DB) (month : String) : List Record :=
  (lookupT db (tableName month)).getD []

/-- Row count of the month table. -/
def rowCount (db : DB) (month : String) : ℕ := (tableRows db month).length

/-! ### Association-list lemmas -/

theorem lookupT_append_some {db : DB} {t : String} {v : List Record} (e : DB)
    (h : lookupT db t = some v) : lookupT (db ++ e) t = some v := by
  induction db with
  | nil => exact Option.noConfusion h
  | cons p rest ih =>
    obtain ⟨k, w⟩ := p
    by_cases hk : k = t
    · simpa [lookupT, hk] using h
    · simp only [lookupT, hk, if_false, List.cons_append] at h ⊢
      exact ih h

theorem lookupT_append_singleton_self (db : DB) (t : String) (rows : List Record)
    (h : lookupT db t = none) : lookupT (db ++ [(t, rows)]) t = some rows := by
  induction db with
  | nil => simp [lookupT]
  | cons p rest ih =>
    obtain ⟨k, w⟩ := p
    by_cases hk : k = t
    · simp [lookupT, hk] at h
    · simp only [lookupT, hk, if_false] at h
      simpa only [List.cons_append, lookupT, hk, if_false] using ih h

theorem lookupT_setTable_self (db : DB) (t : String) (rows : List Record) :
    lookupT (setTable db t rows) t = some rows := by
  induction db with
  | nil => simp [setTable, lookupT]
  | cons p rest ih =>
    obtain ⟨k, w⟩ := p
    by_cases hk : k = t
    · simp [setTable, hk, lookupT]
    · simp [setTable, hk, lookupT, ih]

theorem lookupT_setTable_other (db : DB) {t u : String} (rows : List Record)
    (h : u ≠ t) : lookupT (setTable db t rows) u = lookupT db u := by
  induction db with
  | nil => simp [setTable, lookupT, Ne.symm h]
  | cons p rest ih =>
    obtain ⟨k, w⟩ := p
    by_cases hk : k = t
    · subst hk
      simp [setTable, lookupT, Ne.symm h]
    · by_cases hu : k = u
      · subst hu
        simp [setTable, hk, lookupT]
      · simp [setTable, hk, lookupT, hu, ih]

theorem lookupT_load_self (data : List Record) (month : String) (db : DB) :
    lookupT (load_data_to_db data month db) (tableName month)
      = some ((lookupT db (tableName month)).getD [] ++ data) :=
  lookupT_setTable_self db (tableName month) _

/-! ### Claims C2 and C10: the append operation -/

/-- C2: append (load_data_to_db) is additive only: for any month and any
batch of records, the rows of the month table after the append are exactly
the prior rows followed by the batch (so the row count grows by the batch
size and no existing row is overwritten or deleted), and every other
table is untouched. -/
theorem append_additive (data : List Record) (month : String) (db : DB) :
    tableRows (load_data_to_db data month db) month = tableRows db month ++ data
    ∧ rowCount (load_data_to_db data month db) month = rowCount db month + data.length
    ∧ ∀ t, t ≠ tableName month →
        lookupT (load_data_to_db data month db) t = lookupT db t := by
  have h1 : tableRows (load_data_to_db data month db) month
      = tableRows db month ++ data := by
    simp [tableRows, lookupT_load_self]
  refine ⟨h1, ?_, ?_⟩
  · simp [rowCount, h1]
  · intro t ht
    exact lookupT_setTable_other db _ ht

/-- C10: append never fails on a missing table: for any month string,
calendar month or not, load_data_to_db creates the table expenses_<month>
when it is absent and files the batch there, so records can land in
tables outside the 12 fixed month tables. -/
theorem append_creates_missing_table (month : String) (data : List Record) (db : DB)
    (h : lookupT db (tableName month) = none) :
    lookupT (load_data_to_db data month db) (tableName month) = some data := by
  have := lookupT_load_self data month db
  rwa [h, Option.getD_none, List.nil_append] at this

/-- Witness for C10 at a string that is not a calendar month: the table
expenses_Groceries does not exist in the empty store, and the append files
the batch under it. -/
theorem append_creates_missing_table_witness :
    lookupT [] (tableName "Groceries") = none
    ∧ lookupT (load_data_to_db [sampleRec] "Groceries" []) (tableName "Groceries")
        = some [sampleRec] :=
  ⟨rfl, append_creates_missing_table "Groceries" [sampleRec] [] rfl⟩

/-! ### Claim C3: the schema initializer -/

theorem lookupT_eq_none_iff (db : DB) (t : String) :
    lookupT db t = none ↔ t ∉ keys db := by
  induction db with
  | nil => simp [lookupT, keys]
  | cons p rest ih =>
    obtain ⟨k, w⟩ := p
    by_cases hk : k = t
    · simp [lookupT, hk, keys]
    · simp [lookupT, hk, keys, Ne.symm hk] at ih ⊢
      simpa [keys] using ih

theorem lookupT_isSome_iff (db : DB) (t : String) :
    (lookupT db t).isSome = true ↔ t ∈ keys db := by
  constructor
  · intro h
    by_contra hc
    rw [← lookupT_eq_none_iff] at hc
    simp [hc] at h
  · intro h
    cases hl : lookupT db t with
    | some v => rfl
    | none => exact absurd h ((lookupT_eq_none_iff db t).mp hl)

theorem ctine_preserves {db : DB} {t : String} {v : List Record} (u : String)
    (h : lookupT db t = some v) :
    lookupT (createTableIfNotExists db u) t = some v := by
  unfold createTableIfNotExists
  cases hu : lookupT db u with
  | some w => exact h
  | none => exact lookupT_append_some _ h

theorem ctine_self_isSome (db : DB) (t : String) :
    (lookupT (createTableIfNotExists db t) t).isSome = true := by
  unfold createTableIfNotExists
  cases hu : lookupT db t with
  | some w => simp [hu]
  | none => simp [lookupT_append_singleton_self db t [] hu]

theorem ctine_isSome_mono {db : DB} {t : String} (u : String)
    (h : (lookupT db t).isSome = true) :
    (lookupT (createTableIfNotExists db u) t).isSome = true := by
  obtain ⟨v, hv⟩ := Option.isSome_iff_exists.mp h
  simp [ctine_preserves u hv]

theorem ctine_eq_of_isSome {db : DB} {t : String}
    (h : (lookupT db t).isSome = true) : createTableIfNotExists db t = db := by
  obtain ⟨v, hv⟩ := Option.isSome_iff_exists.mp h
  simp [createTableIfNotExists, hv]

theorem ctine_keys_nodup {db : DB} (t : String) (h : (keys db).Nodup) :
    (keys (createTableIfNotExists db t)).Nodup := by
  unfold createTableIfNotExists
  cases hu : lookupT db t with
  | some w => exact h
  | none =>
    have ht : t ∉ keys db := (lookupT_eq_none_iff db t).mp hu
    have : keys (db ++ [(t, [])]) = keys db ++ [t] := by simp [keys]
    rw [this, List.nodup_append]
    refine ⟨h, List.nodup_singleton t, ?_⟩
    intro a ha hb
    rw [List.mem_singleton] at hb
    subst hb
    exact ht ha

theorem foldl_ctine_preserves (ms : List String) {db : DB} {t : String}
    {v : List Record} (h : lookupT db t = some v) :
    lookupT (ms.foldl createTableIfNotExists db) t = some v := by
  induction ms generalizing db with
  | nil => exact h
  | cons a ms ih => exact ih (ctine_preserves a h)

theorem foldl_ctine_isSome_mono (ms : List String) {db : DB} {t : String}
    (h : (lookupT db t).isSome = true) :
    (lookupT (ms.foldl createTableIfNotExists db) t).isSome = true := by
  induction ms generalizing db with
  | nil => exact h
  | cons a ms ih => exact ih (ctine_isSome_mono a h)

theorem foldl_ctine_isSome_of_mem {ms : List String} {t : String} (db : DB)
    (h : t ∈ ms) :
    (lookupT (ms.foldl createTableIfNotExists db) t).isSome = true := by
  induction ms generalizing db with
  | nil => cases h
  | cons a ms ih =>
    rcases List.mem_cons.mp h with h | h
    · subst h
      exact foldl_ctine_isSome_mono ms (ctine_self_isSome db t)
    · exact ih _ h

theorem foldl_ctine_keys_nodup (ms : List String) {db : DB}
    (h : (keys db).Nodup) :
    (keys (ms.foldl createTableIfNotExists db)).Nodup := by
  induction ms generalizing db with
  | nil => exact h
  | cons a ms ih => exact ih (ctine_keys_nodup a h)

theorem foldl_ctine_fixed (ms : List String) {db : DB}
    (h : ∀ t ∈ ms, (lookupT db t).isSome = true) :
    ms.foldl createTableIfNotExists db = db := by
  induction ms with
  | nil => rfl
  | cons a ms ih =>
    have ha : createTableIfNotExists db a = db :=
      ctine_eq_of_isSome (h a (List.mem_cons_self a ms))
    simp only [List.foldl_cons, ha]
    exact ih (fun t ht => h t (List.mem_cons_of_mem a ht))

/-- C3: init_db is idempotent: on a store with distinct table names it
ensures each of the 12 month tables exists exactly once, never errors (it
is a total function), leaves every existing table and its rows unchanged,
and running it a second time changes nothing. -/
theorem init_db_idempotent (db : DB) (h : (keys db).Nodup) :
    (∀ m ∈ months, (lookupT (init_db db) (tableName m)).isSome = true)
    ∧ (keys (init_db db)).Nodup
    ∧ (∀ m ∈ months, (keys (init_db db)).count (tableName m) = 1)
    ∧ (∀ t v, lookupT db t = some v → lookupT (init_db db) t = some v)
    ∧ init_db (init_db db) = init_db db := by
  have hmem : ∀ m ∈ months, (lookupT (init_db db) (tableName m)).isSome = true := by
    intro m hm
    exact foldl_ctine_isSome_of_mem db (List.mem_map_of_mem tableName hm)
  have hnodup : (keys (init_db db)).Nodup := foldl_ctine_keys_nodup monthTables h
  refine ⟨hmem, hnodup, ?_, ?_, ?_⟩
  · intro m hm
    exact List.count_eq_one_of_mem hnodup
      ((lookupT_isSome_iff (init_db db) (tableName m)).mp (hmem m hm))
  · intro t v hv
    exact foldl_ctine_preserves monthTables hv
  · refine foldl_ctine_fixed monthTables ?_
    intro t ht
    simp only [monthTables, List.mem_map] at ht
    obtain ⟨m, hm, rfl⟩ := ht
    exact hmem m hm

/-- Witness for C3 at the empty store. -/
theorem init_db_idempotent_witness :
    (keys ([] : DB)).Nodup
    ∧ ((∀ m ∈ months, (lookupT (init_db []) (tableName m)).isSome = true)
      ∧ (keys (init_db [])).Nodup
      ∧ (∀ m ∈ months, (keys (init_db [])).count (tableName m) = 1)
      ∧ (∀ t v, lookupT ([] : DB) t = some v → lookupT (init_db []) t = some v)
      ∧ init_db (init_db []) = init_db []) :=
  ⟨List.nodup_nil, init_db_idempotent [] List.nodup_nil⟩

/-! ### Claims C1 and C8: the data generator -/

theorem pyRound2_bounds {lo hi x : ℚ} {m M : ℤ}
    (hlo : (m : ℚ) = 100 * lo) (hhi : (M : ℚ) = 100 * hi)
    (h1 : lo ≤ x) (h2 : x < hi) : lo ≤ pyRound2 x ∧ pyRound2 x ≤ hi := by
  have hl : m ≤ round (100 * x) := by
    rw [round_eq]
    refine Int.le_floor.mpr ?_
    rw [hlo]
    linarith
  have hu : round (100 * x) ≤ M := by
    rw [round_eq]
    have hlt : ⌊100 * x + 1 / 2⌋ < M + 1 := by
      refine Int.floor_lt.mpr ?_
      push_cast
      linarith
    omega
  have hlq : (m : ℚ) ≤ ((round (100 * x) : ℤ) : ℚ) := Int.cast_le.mpr hl
  have huq : ((round (100 * x) : ℤ) : ℚ) ≤ (M : ℚ) := Int.cast_le.mpr hu
  rw [hlo] at hlq
  rw [hhi] at huq
  unfold pyRound2
  constructor <;> linarith

theorem pyUniform_bounds {a b u : ℚ} (hab : a < b) (h0 : 0 ≤ u) (h1 : u < 1) :
    a ≤ pyUniform a b u ∧ pyUniform a b u < b := by
  unfold pyUniform
  constructor
  · nlinarith
  · nlinarith

/-- C1: every record produced by generate_data has Amount_Paid in the
closed interval from 50 to 1000 and Cashback in the closed interval from
0 to 50, for any month label, any record count and any randomness source
whose unit draws respect the random.random contract. -/
theorem generate_data_amount_bounds (month : String) (n : ℕ) (r : RandStream)
    (hA : ∀ i, 0 ≤ r.uAmount i ∧ r.uAmount i < 1)
    (hC : ∀ i, 0 ≤ r.uCash i ∧ r.uCash i < 1) :
    ∀ x ∈ generate_data month n r,
      (50 ≤ x.Amount_Paid ∧ x.Amount_Paid ≤ 1000)
      ∧ (0 ≤ x.Cashback ∧ x.Cashback ≤ 50) := by
  intro x hx
  simp only [generate_data, List.mem_map, List.mem_range] at hx
  obtain ⟨k, -, rfl⟩ := hx
  constructor
  · have hb := pyUniform_bounds (show (50 : ℚ) < 1000 by norm_num)
      (hA k).1 (hA k).2
    exact pyRound2_bounds (m := 5000) (M := 100000) (by norm_num) (by norm_num)
      hb.1 hb.2
  · have hb := pyUniform_bounds (show (0 : ℚ) < 50 by norm_num)
      (hC k).1 (hC k).2
    exact pyRound2_bounds (m := 0) (M := 5000) (by norm_num) (by norm_num)
      hb.1 hb.2

/-- Witness for C1 with a concrete randomness source. -/
theorem generate_data_amount_bounds_witness :
    (∀ i, 0 ≤ constStream.uAmount i ∧ constStream.uAmount i < 1)
    ∧ ∀ x ∈ generate_data "January" 1 constStream,
        (50 ≤ x.Amount_Paid ∧ x.Amount_Paid ≤ 1000)
        ∧ (0 ≤ x.Cashback ∧ x.Cashback ≤ 50) :=
  ⟨fun _ => by constructor <;> norm_num [constStream],
   generate_data_amount_bounds "January" 1 constStream
     (fun _ => by constructor <;> norm_num [constStream])
     (fun _ => by constructor <;> norm_num [constStream])⟩

theorem pyChoice_mem {l : List String} (i : ℕ) (h : l ≠ []) : pyChoice l i ∈ l := by
  have hl : 0 < l.length := List.length_pos.mpr h
  have hi : i % l.length < l.length := Nat.mod_lt _ hl
  rw [pyChoice, List.getD_eq_getElem?_getD, List.getElem?_eq_getElem hi,
    Option.getD_some]
  exact List.getElem_mem hi

/-- C8: generate_data returns exactly n records for any month label and
count; each has Category among the 10 fixed labels, Payment_Mode among
the 6 fixed labels, and Month equal to the given label. The embedding is
a pure function of the month, the count and the randomness source: it
takes no database argument, so it cannot touch the store, and it is total,
so it has no error conditions. -/
theorem generate_data_shape (month : String) (n : ℕ) (r : RandStream) :
    (generate_data month n r).length = n
    ∧ categories.length = 10
    ∧ payment_modes.length = 6
    ∧ ∀ x ∈ generate_data month n r,
        x.Category ∈ categories ∧ x.Payment_Mode ∈ payment_modes ∧ x.Month = month := by
  refine ⟨by simp [generate_data], rfl, rfl, ?_⟩
  intro x hx
  simp only [generate_data, List.mem_map, List.mem_range] at hx
  obtain ⟨k, -, rfl⟩ := hx
  exact ⟨pyChoice_mem _ (by simp [categories]),
    pyChoice_mem _ (by simp [payment_modes]), rfl⟩

/-! ### Claim C4: the Top 5 Highest Expenses query -/

/-- Concrete record with a chosen amount, used in concrete-state theorems. -/
def mkRec (amt : ℚ) : Record :=
  { Date := "2026-01-02"
    Category := "Food"
    Payment_Mode := "Cash"
    Description := "sample"
    Amount_Paid := amt
    Cashback := 1
    Month := "January" }

/-- Five concrete rows for the C4 witness. -/
def sampleRows : List Record := [mkRec 100, mkRec 400, mkRec 250, mkRec 999, mkRec 60]

/-- Concrete store holding the five sample rows in the January table. -/
def sampleDB : DB := [(tableName "January", sampleRows)]

/-- C4: on any month whose table holds at least 5 rows, the Top 5 Highest
Expenses query returns exactly 5 rows in descending order of Amount_Paid,
and the Predefined SQL Queries branch renders that result. -/
theorem top5_query_spec (db : DB) (month : String) (rows : List Record)
    (h : lookupT db (tableName month) = some rows) (h5 : 5 ≤ rows.length) :
    ∃ out, (query_data (top5Query month) db).1 = Except.ok (ResultSet.records out)
      ∧ predefinedBranch (top5Query month) month db = Outcome.table (ResultSet.records out)
      ∧ out.length = 5 ∧ List.Pairwise amtGe out := by
  refine ⟨(sortByAmountDesc rows).take 5, ?_, ?_, ?_, ?_⟩
  · simp [query_data, top5Query, h]
  · simp [predefinedBranch, query_data, top5Query, h]
  · rw [List.length_take, sortByAmountDesc,
      (List.perm_insertionSort amtGe rows).length_eq]
    exact Nat.min_eq_left h5
  · exact (List.sorted_insertionSort amtGe rows).sublist (List.take_sublist 5 _)

/-- Witness for C4 on a concrete five-row January table. -/
theorem top5_query_spec_witness :
    lookupT sampleDB (tableName "January") = some sampleRows
    ∧ 5 ≤ sampleRows.length
    ∧ ∃ out, (query_data (top5Query "January") sampleDB).1
          = Except.ok (ResultSet.records out)
        ∧ predefinedBranch (top5Query "January") "January" sampleDB
          = Outcome.table (ResultSet.records out)
        ∧ out.length = 5 ∧ List.Pairwise amtGe out :=
  ⟨by simp [sampleDB, lookupT], by norm_num [sampleRows],
   top5_query_spec sampleDB "January" sampleRows (by simp [sampleDB, lookupT])
     (by norm_num [sampleRows])⟩

/-! ### Claim C6: the generate-then-view scenario -/

/-- C6: starting from a store whose January table is empty (as after the
schema initializer runs on a fresh database), generating 50 records for
January and then running View on January returns exactly those 50 rows,
each with Month equal to January. -/
theorem generate_then_view_january (r : RandStream) (db : DB)
    (h : tableRows db "January" = []) :
    viewBranch "January"
        (load_data_to_db (generate_data "January" 50 r) "January" db)
      = Outcome.table (ResultSet.records (generate_data "January" 50 r))
    ∧ (generate_data "January" 50 r).length = 50
    ∧ ∀ x ∈ generate_data "January" 50 r, x.Month = "January" := by
  have hl := lookupT_load_self (generate_data "January" 50 r) "January" db
  rw [show (lookupT db (tableName "January")).getD []
        = tableRows db "January" from rfl, h, List.nil_append] at hl
  refine ⟨?_, by simp [generate_data], ?_⟩
  · simp [viewBranch, query_data, hl]
  · intro x hx
    simp only [generate_data, List.mem_map, List.mem_range] at hx
    obtain ⟨k, -, rfl⟩ := hx
    rfl

/-- Witness for C6 starting from the freshly initialized store. -/
theorem generate_then_view_january_witness :
    tableRows (init_db []) "January" = []
    ∧ (viewBranch "January"
          (load_data_to_db (generate_data "January" 50 constStream) "January"
            (init_db []))
        = Outcome.table (ResultSet.records (generate_data "January" 50 constStream))
      ∧ (generate_data "January" 50 constStream).length = 50
      ∧ ∀ x ∈ generate_data "January" 50 constStream, x.Month = "January") :=
  ⟨by decide, generate_then_view_january constStream (init_db []) (by decide)⟩

/-! ### Claim C5: reported errors on bad queries -/

/-- C5: a query against a month with no table, and malformed SQL through
the custom-query mode, both surface as a caught, user-visible st.error
message; the branch result is never an uncaught exception, and malformed
SQL leaves the store unchanged. -/
theorem query_error_reported (month : String) (db : DB)
    (h : lookupT db (tableName month) = none) (raw : String) :
    viewBranch month db
      = Outcome.errorShown
          ("Error: " ++ ("no such table: " ++ tableName month)
            ++ ". Make sure the table for " ++ month ++ " exists.")
    ∧ (viewBranch month db).isUncaught = false
    ∧ (runSqlBranch (SQL.malformed raw) db).1
        = Outcome.errorShown
            ("An error occurred: " ++ ("near " ++ raw ++ ": syntax error"))
    ∧ (runSqlBranch (SQL.malformed raw) db).2 = db := by
  have h1 : viewBranch month db
      = Outcome.errorShown
          ("Error: " ++ ("no such table: " ++ tableName month)
            ++ ". Make sure the table for " ++ month ++ " exists.") := by
    simp [viewBranch, query_data, h]
  exact ⟨h1, by rw [h1]; rfl, rfl, rfl⟩

/-- Witness for C5 on the empty store. -/
theorem query_error_reported_witness :
    lookupT [] (tableName "January") = none
    ∧ (viewBranch "January" []
        = Outcome.errorShown
            ("Error: " ++ ("no such table: " ++ tableName "January")
              ++ ". Make sure the table for " ++ "January" ++ " exists.")
      ∧ (viewBranch "January" []).isUncaught = false
      ∧ (runSqlBranch (SQL.malformed "SELEC") []).1
          = Outcome.errorShown
              ("An error occurred: " ++ ("near " ++ "SELEC" ++ ": syntax error"))
      ∧ (runSqlBranch (SQL.malformed "SELEC") []).2 = []) :=
  ⟨rfl, query_error_reported "January" [] rfl "SELEC"⟩

/-! ### Claim C7: error handling at the dispatcher boundary -/

/-- C7 as stated is false: the Generate Data branch wraps its work in no
try/except, so an exception raised while loading the generated batch is
not shown as a textual error message. -/
theorem generate_branch_uncaught_cex :
    (generateBranch "January" 50 constStream (init_db [])
        (some "database is locked")).1
      = Outcome.uncaught "database is locked"
    ∧ ∀ msg, (generateBranch "January" 50 constStream (init_db [])
        (some "database is locked")).1 ≠ Outcome.errorShown msg := by
  refine ⟨rfl, ?_⟩
  intro msg hmsg
  exact Outcome.noConfusion hmsg

/-- C7 amended: failures in the View, Visualize, Run Custom Query and
Predefined Query modes are caught by the branch-level try/except and
shown as textual error messages, never escaping uncaught; the Generate
Data mode has no handler, so a failure during its load propagates
uncaught. -/
theorem dispatcher_error_handling :
    (∀ month db, (viewBranch month db).isUncaught = false)
    ∧ (∀ month db, (visualizeBranch month db).isUncaught = false)
    ∧ (∀ q db, ((runSqlBranch q db).1).isUncaught = false)
    ∧ (∀ q month db, (predefinedBranch q month db).isUncaught = false)
    ∧ (∀ month n r db e,
        (generateBranch month n r db (some e)).1 = Outcome.uncaught e) := by
  refine ⟨?_, ?_, ?_, ?_, ?_⟩
  · intro month db
    cases hq : (query_data (SQL.selectAll (tableName month)) db).1 <;>
      simp [viewBranch, hq, Outcome.isUncaught]
  · intro month db
    cases hq : (query_data (SQL.groupSumByCategory (tableName month)) db).1 <;>
      simp [visualizeBranch, hq, Outcome.isUncaught]
  · intro q db
    cases hq : query_data q db with
    | mk res db2 => cases res <;> simp [runSqlBranch, hq, Outcome.isUncaught]
  · intro q month db
    cases hq : (query_data q db).1 <;>
      simp [predefinedBranch, hq, Outcome.isUncaught]
  · intro month n r db e
    rfl

/-! ### Claim C9: the custom-query mode can mutate the store -/

/-- Concrete store with one record loaded into the January table. -/
def janDB : DB := load_data_to_db [sampleRec] "January" (init_db [])

/-- C9: query_data is not restricted to read-only statements: a DROP
TABLE statement sent through the custom-query mode removes the January
table from the store, so the store after the call differs from the store
before it. -/
theorem custom_query_mutates_store :
    lookupT janDB (tableName "January") = some [sampleRec]
    ∧ lookupT (runSqlBranch (SQL.dropTable (tableName "January")) janDB).2
        (tableName "January") = none
    ∧ (runSqlBranch (SQL.dropTable (tableName "January")) janDB).2 ≠ janDB := by
  exact ⟨by decide, by decide, by decide⟩

end ExpenseTracker
